import Mathlib

/-!
Shallow embedding of `src/nursesim_rl/pds_client.py` (NHS Personal
Demographics Service FHIR client): NHS-number validation, the
environment-gated constructor, request headers, the two lookup variants,
and the response normalizer `_parse_patient_response`.

Modelling conventions:
* Python strings are Lean `String` / `List Char`.  Python's `re` class
  `\d` (str pattern) matches every Unicode decimal digit (category Nd)
  and `int()` parses those; this embedding models only the ASCII
  fragment `'0'..'9'` of that class, so `validateChars` under-approximates
  the source's acceptance on strings containing non-ASCII Nd digits.
  Every theorem below therefore quantifies only over domains on which
  the embedding and the source agree: all-ASCII digit strings, inputs
  rejected for their length or for an ASCII non-digit character, and
  inputs the code rejects.  Python's `$` anchor matches at the end of
  the string or just before one trailing `'\n'`, and that is modelled
  faithfully.
* Python exceptions are the `PyError` sum; a raising function returns
  `Except PyError α`.
* `date.today()` and `uuid.uuid4()` are nondeterministic inputs; they are
  passed in as explicit parameters (`today : Date`, `requestId : String`).
* The HTTP transport is an injected oracle `String → Headers → HttpResponse`
  whose body is already the decoded JSON document, structured as the FHIR
  fields the client reads.  `response.raise_for_status()` (httpx) raises
  exactly when the status is not 2xx.
* The float `timeout` field takes no part in any computation modelled
  here and is omitted from the client record.
-/

namespace PDS

/-- Python exceptions raised by the client: `ValueError msg` and
`httpx.HTTPStatusError` (carrying the response status). -/
inductive PyError where
  | valueError (msg : String)
  | httpStatusError (status : Nat)
deriving Repr, DecidableEq

/-- `class PDSEnvironment(Enum)`. -/
inductive PDSEnvironment where
  | SANDBOX
  | INTEGRATION
  | PRODUCTION
deriving Repr, DecidableEq

/-- `PDSEnvironment.value` (the enum's string payload). -/
def PDSEnvironment.value : PDSEnvironment → String
  | .SANDBOX => "sandbox"
  | .INTEGRATION => "int"
  | .PRODUCTION => "prod"

/-- `PDSClient.BASE_URLS`. -/
def BASE_URLS : PDSEnvironment → String
  | .SANDBOX => "https://sandbox.api.service.nhs.uk"
  | .INTEGRATION => "https://int.api.service.nhs.uk"
  | .PRODUCTION => "https://api.service.nhs.uk"

/-- `PDSClient.API_PATH`. -/
def API_PATH : String := "/personal-demographics/FHIR/R4/Patient"

/-- Python truthiness of an `Optional[str]`: `None` and `""` are falsy. -/
def pyTruthy : Option String → Bool
  | none => false
  | some s => s ≠ ""

/-! ## FHIR response document

The loosely-typed nested mapping, restricted to the shape the client
actually reads (a field the code reads with `.get(k)` is an `Option`, a
field read with `.get(k, [])` is a `List`). -/

/-- One entry of `data["name"]`: `use`, `given[]`, `family`. -/
structure HumanName where
  use : Option String
  given : List String
  family : Option String
deriving Repr, DecidableEq

/-- One entry of `data["address"]`: `use`, `line[]`, `city`, `postalCode`. -/
structure FhirAddress where
  use : Option String
  line : List String
  city : Option String
  postalCode : Option String
deriving Repr, DecidableEq

/-- `gp["identifier"]` sub-object. -/
structure GPIdentifier where
  value : Option String
deriving Repr, DecidableEq

/-- One entry of `data["generalPractitioner"]`: `identifier.value`, `display`.
`none` models the key being absent. -/
structure GPReference where
  identifier : Option GPIdentifier
  display : Option String
deriving Repr, DecidableEq

/-- One entry of `meta["security"]`: `code`. -/
structure SecurityLabel where
  code : Option String
deriving Repr, DecidableEq

/-- `data["meta"]`: `security[]` (`none` models the key being absent). -/
structure FhirMeta where
  security : Option (List SecurityLabel)
deriving Repr, DecidableEq

/-- The raw patient document (`data` in `_parse_patient_response`). -/
structure FhirPatient where
  name : List HumanName
  birthDate : Option String
  gender : Option String
  address : List FhirAddress
  generalPractitioner : List GPReference
  meta : Option FhirMeta
  deceasedBoolean : Option Bool
  deceasedDateTime : Option String
deriving Repr, DecidableEq

/-- `@dataclass PatientDemographics`. -/
structure PatientDemographics where
  nhs_number : String
  given_name : Option String := none
  family_name : Option String := none
  full_name : Option String := none
  date_of_birth : Option String := none
  gender : Option String := none
  age : Option Int := none
  address : Option String := none
  postcode : Option String := none
  gp_practice_ods : Option String := none
  gp_practice_name : Option String := none
  is_deceased : Bool := false
  is_restricted : Bool := false
  raw_response : Option FhirPatient := none
deriving Repr, DecidableEq

/-! ## Number validator (`PDSClient.validate_nhs_number`) -/

/-- The ASCII digits `'0' ≤ c ≤ '9'`.  This is only the ASCII fragment
of Python's `\d`: the source also accepts the non-ASCII Unicode decimal
digits (category Nd), which are not modelled here — see the header note. -/
def isAsciiDigit (c : Char) : Bool := 48 ≤ c.toNat && c.toNat ≤ 57

/-- `int(c)` for a single ASCII digit character. -/
def charToDigit (c : Char) : Nat := c.toNat - 48

/-- `re.match(r"^\d{10}$", s)` with `\d` restricted to its ASCII
fragment (an under-approximation of the source's acceptance — the real
`\d` also matches non-ASCII Nd digits); Python's `$` also matches just
before a single newline at the end of the string, modelled exactly. -/
def pyMatchTenDigits (l : List Char) : Bool :=
  (l.length == 10 && l.all isAsciiDigit) ||
  (l.length == 11 && (l.take 10).all isAsciiDigit && l.getLast? == some '\n')

/-- `s.replace(" ", "")`: drop every space character (only `' '`). -/
def removeSpaces (l : List Char) : List Char := l.filter (fun c => c ≠ ' ')

/-- The checksum weights of the first nine digits. -/
def nhsWeights : List Nat := [10, 9, 8, 7, 6, 5, 4, 3, 2]

/-- `PDSClient.validate_nhs_number` on the character list. -/
def validateChars (s : List Char) : Bool :=
  let t := removeSpaces s
  if pyMatchTenDigits t then
    -- total = sum(int(t[i]) * weights[i] for i in range(9))
    let total := (List.zipWith (fun w c => w * charToDigit c) nhsWeights (t.take 9)).sum
    let remainder := total % 11
    let check_digit := 11 - remainder
    if check_digit = 11 then (0 == charToDigit (t.getD 9 ' ') : Bool)
    else if check_digit = 10 then false
    else (check_digit == charToDigit (t.getD 9 ' ') : Bool)
  else false

/-- `PDSClient.validate_nhs_number` (staticmethod; total, never raises). -/
def validate_nhs_number (s : String) : Bool := validateChars s.data


/-! ## Client construction (`PDSClient.__init__`) and headers -/

/-- The constructed client (`self.environment`, `self.access_token`,
`self.base_url`; the inert float `timeout` is omitted). -/
structure PDSClient where
  environment : PDSEnvironment
  access_token : Option String
  base_url : String
deriving Repr, DecidableEq

/-- `PDSClient.__init__`: stores the fields, then raises `ValueError`
when the environment is not sandbox and `not access_token`. -/
def pdsClientInit (environment : PDSEnvironment) (access_token : Option String) :
    Except PyError PDSClient :=
  let base_url := BASE_URLS environment
  if environment ≠ .SANDBOX ∧ ¬ pyTruthy access_token then
    .error (.valueError
      ("Access token required for " ++ environment.value ++ " environment. " ++
       "Use PDSEnvironment.SANDBOX for unauthenticated testing."))
  else
    .ok { environment := environment, access_token := access_token, base_url := base_url }

/-- `PDSClient._get_headers`; `requestId` stands for `str(uuid.uuid4())`. -/
def get_headers (c : PDSClient) (requestId : String) : List (String × String) :=
  let headers := [("Accept", "application/fhir+json"), ("X-Request-ID", requestId)]
  if pyTruthy c.access_token then
    headers ++ [("Authorization", "Bearer " ++ c.access_token.getD "")]
  else
    headers

/-! ## Age calculation (`PDSClient._calculate_age`) -/

/-- A `datetime.date`-like triple (validity is checked by `pyDateValid`). -/
structure Date where
  year : Nat
  month : Nat
  day : Nat
deriving Repr, DecidableEq

/-- Gregorian leap year, as `datetime` uses. -/
def isLeap (y : Nat) : Bool := (y % 4 == 0 && y % 100 != 0) || y % 400 == 0

/-- Days in a month, as `datetime` uses. -/
def daysInMonth (y m : Nat) : Nat :=
  if m = 2 then (if isLeap y then 29 else 28)
  else if m = 4 ∨ m = 6 ∨ m = 9 ∨ m = 11 then 30
  else 31

/-- The argument check of the `date(y, m, d)` constructor
(raises `ValueError` outside these bounds). -/
def pyDateValid (y m d : Nat) : Bool :=
  1 ≤ y && y ≤ 9999 && 1 ≤ m && m ≤ 12 && 1 ≤ d && d ≤ daysInMonth y m

/-- `s.split("-")` for the one-character separator (always a nonempty
list of fragments; `"".split("-") == [""]`). -/
def splitOnChar (sep : Char) : List Char → List (List Char)
  | [] => [[]]
  | c :: cs =>
    match splitOnChar sep cs with
    | [] => [[]]   -- unreachable: the result is always nonempty
    | h :: t => if c = sep then [] :: h :: t else (c :: h) :: t

/-- `int(s)` on a fragment, modelled for the plain-digits case: `some`
of the value when `s` is a nonempty all-ASCII-digit string, else `none`
(`ValueError`).  (Python's `int` additionally accepts surrounding
whitespace, a sign and digit-group underscores; those inputs are not
exercised by any claim and are mapped to `none` here.) -/
def pyParseNat (l : List Char) : Option Nat :=
  if l ≠ [] ∧ l.all isAsciiDigit then
    some (l.foldl (fun a c => a * 10 + charToDigit c) 0)
  else none

/-- Python tuple comparison `(a, b) < (c, d)`: lexicographic. -/
def pairLt (a b : Nat × Nat) : Bool :=
  a.1 < b.1 || (a.1 == b.1 && a.2 < b.2)

/-- `PDSClient._calculate_age`: split on `"-"`, build the birth date,
subtract years, adjust when today's (month, day) precedes the birth
(month, day).  Every `ValueError`/`IndexError` is caught and becomes
`none` (the Python function returns `None` there). -/
def calculate_age (today : Date) (date_of_birth : String) : Option Int :=
  let parts := splitOnChar '-' date_of_birth.data
  match parts.get? 0, parts.get? 1, parts.get? 2 with
  | some p0, some p1, some p2 =>
    match pyParseNat p0, pyParseNat p1, pyParseNat p2 with
    | some y, some m, some d =>
      if pyDateValid y m d then
        let age : Int := (today.year : Int) - (y : Int)
        if pairLt (today.month, today.day) (m, d) then some (age - 1) else some age
      else none
    | _, _, _ => none
  | _, _, _ => none


/-! ## Response normalizer (`PDSClient._parse_patient_response`) -/

/-- The ASCII characters Python's `str.strip()` removes. -/
def pyIsSpace (c : Char) : Bool :=
  c = ' ' || c = '\t' || c = '\n' || c = '\r' || c = '\x0b' || c = '\x0c'

/-- `s.strip()`: drop whitespace from both ends. -/
def pyStrip (s : String) : String :=
  String.mk ((((s.data.dropWhile pyIsSpace).reverse).dropWhile pyIsSpace).reverse)

/-- `str.capitalize()`: first character uppercased, the rest lowercased
(ASCII case mapping; the inputs here are ASCII). -/
def pyCapitalize (s : String) : String :=
  match s.data with
  | [] => ""
  | c :: cs => String.mk (c.toUpper :: cs.map Char.toLower)

/-- Lines 237–241 of the source: `meta = data.get("meta", {})`; if
`"security" in meta`, collect `[s.get("code") for s in meta["security"]]`
and test `"R" in security_codes`. -/
def docIsRestricted (data : FhirPatient) : Bool :=
  match data.meta with
  | none => false
  | some m =>
    match m.security with
    | none => false
    | some labels => (labels.map (fun s => s.code)).contains (some "R")

/-- `PDSClient._parse_patient_response`, transcribed in source order:
name, then date of birth / age, gender, address, GP practice, and only
then the restricted-record check (which raises a plain
`ValueError("Access denied: Restricted patient record")`), the deceased
flag, and the record construction (which stores `raw_response=data`). -/
def parse_patient_response (today : Date) (nhs_number : String) (data : FhirPatient) :
    Except PyError PatientDemographics :=
  -- Extract name
  let names := data.name
  let nameFields : Option String × Option String × Option String :=
    match names with
    | [] => (none, none, none)
    | n0 :: _ =>
      -- Get official name or first available
      let official_name := (names.find? (fun n => n.use == some "official")).getD n0
      let given_name := " ".intercalate official_name.given
      let family_name := official_name.family.getD ""
      let full_name := pyStrip (given_name ++ " " ++ family_name)
      (some given_name, some family_name, some full_name)
  let given_name := nameFields.1
  let family_name := nameFields.2.1
  let full_name := nameFields.2.2
  -- Extract date of birth and calculate age (None and "" are falsy)
  let date_of_birth := data.birthDate
  let age := if pyTruthy date_of_birth then calculate_age today (date_of_birth.getD "") else none
  -- Extract gender
  let gender := pyCapitalize (data.gender.getD "")
  -- Extract address
  let addrFields : Option String × Option String :=
    match data.address with
    | [] => (none, none)
    | a0 :: _ =>
      let home_addr := (data.address.find? (fun a => a.use == some "home")).getD a0
      let address_lines := home_addr.line
      let city := home_addr.city.getD ""
      let postcode := home_addr.postalCode.getD ""
      let address := ", ".intercalate ((address_lines ++ [city, postcode]).filter (fun x => x ≠ ""))
      (some address, some postcode)
  let address := addrFields.1
  let postcode := addrFields.2
  -- Extract GP practice
  let gpFields : Option String × Option String :=
    match data.generalPractitioner with
    | [] => (none, none)
    | gp :: _ =>
      let gp_practice_ods := match gp.identifier with
        | some idObj => idObj.value
        | none => none
      (gp_practice_ods, gp.display)
  let gp_practice_ods := gpFields.1
  let gp_practice_name := gpFields.2
  -- Check for restricted record
  let is_restricted := docIsRestricted data
  if is_restricted then
    .error (.valueError "Access denied: Restricted patient record")
  else
    -- Check for deceased
    let is_deceased := data.deceasedBoolean.getD false || data.deceasedDateTime.isSome
    .ok { nhs_number := nhs_number
          given_name := given_name
          family_name := family_name
          full_name := full_name
          date_of_birth := date_of_birth
          gender := some gender
          age := age
          address := address
          postcode := postcode
          gp_practice_ods := gp_practice_ods
          gp_practice_name := gp_practice_name
          is_deceased := is_deceased
          is_restricted := is_restricted
          raw_response := some data }

/-! ## Lookup orchestration (`lookup_patient`, `lookup_patient_sync`) -/

/-- The transport's answer: HTTP status and the decoded JSON body. -/
structure HttpResponse where
  status : Nat
  body : FhirPatient

/-- An injected transport oracle: `perform GET url with headers`. -/
def Transport := String → List (String × String) → HttpResponse

/-- `PDSClient.lookup_patient` (the `async` variant): strip spaces,
validate (raising `ValueError` with no transport use on failure), build
the URL, perform the GET, `raise_for_status()` (httpx: raises for every
non-2xx status), and normalize. -/
def lookup_patient (c : PDSClient) (transport : Transport)
    (requestId : String) (today : Date) (nhs_number : String) :
    Except PyError PatientDemographics :=
  -- Clean and validate NHS number
  let nhs_number := String.mk (removeSpaces nhs_number.data)
  if ¬ validate_nhs_number nhs_number then
    .error (.valueError ("Invalid NHS number: " ++ nhs_number))
  else
    let url := c.base_url ++ API_PATH ++ "/" ++ nhs_number
    let response := transport url (get_headers c requestId)
    if 200 ≤ response.status ∧ response.status ≤ 299 then
      parse_patient_response today nhs_number response.body
    else
      .error (.httpStatusError response.status)

/-- `PDSClient.lookup_patient_sync`: the synchronous variant,
transcribed from its own method body (lines 165–181). -/
def lookup_patient_sync (c : PDSClient) (transport : Transport)
    (requestId : String) (today : Date) (nhs_number : String) :
    Except PyError PatientDemographics :=
  let nhs_number := String.mk (removeSpaces nhs_number.data)
  if ¬ validate_nhs_number nhs_number then
    .error (.valueError ("Invalid NHS number: " ++ nhs_number))
  else
    let url := c.base_url ++ API_PATH ++ "/" ++ nhs_number
    let response := transport url (get_headers c requestId)
    if 200 ≤ response.status ∧ response.status ≤ 299 then
      parse_patient_response today nhs_number response.body
    else
      .error (.httpStatusError response.status)

/-! ## Concrete fixtures (mirroring the repository's own test data) -/

/-- A fixed reference date standing for `date.today()`. -/
def today0 : Date := ⟨2026, 10, 12⟩

/-- The restricted-patient mock document used by the repository's
security tests: security label code `"R"`, official name Jayne Smythe,
female, born 1980-01-01. -/
def restrictedDoc : FhirPatient :=
  { name := [{ use := some "official", given := ["Jayne"], family := some "Smythe" }]
    birthDate := some "1980-01-01"
    gender := some "female"
    address := []
    generalPractitioner := []
    meta := some { security := some [{ code := some "R" }] }
    deceasedBoolean := none
    deceasedDateTime := none }

/-- The standard-patient mock document (Jane Smith, no security labels). -/
def janeDoc : FhirPatient :=
  { name := [{ use := some "official", given := ["Jane"], family := some "Smith" }]
    birthDate := some "1980-01-01"
    gender := some "female"
    address := []
    generalPractitioner := []
    meta := none
    deceasedBoolean := none
    deceasedDateTime := none }

/-- The record `_parse_patient_response today0 "9000000009" janeDoc` builds. -/
def janeExpected : PatientDemographics :=
  { nhs_number := "9000000009"
    given_name := some "Jane"
    family_name := some "Smith"
    full_name := some "Jane Smith"
    date_of_birth := some "1980-01-01"
    gender := some "Female"
    age := some 46
    raw_response := some janeDoc }

/-- A document with every optional field absent. -/
def emptyDoc : FhirPatient :=
  { name := [], birthDate := none, gender := none, address := []
    generalPractitioner := [], meta := none
    deceasedBoolean := none, deceasedDateTime := none }

/-- The sandbox client as `PDSClient(environment=PDSEnvironment.SANDBOX)`
constructs it. -/
def sandboxClient : PDSClient :=
  { environment := .SANDBOX, access_token := none
    base_url := "https://sandbox.api.service.nhs.uk" }

/-- A concrete transport oracle (returns 200 and the empty document). -/
def dummyTransport : Transport := fun _ _ => ⟨200, emptyDoc⟩

/-- The check-digit rule exactly as the specification words it: weight
the first nine digits by `[10,9,8,7,6,5,4,3,2]`, `check = 11 - sum mod
11`, `11` maps to `0`, `10` is always invalid, otherwise compare with
the tenth digit. -/
def nhsCheckDigitSpec (ds : List Nat) : Prop :=
  let total := 10 * ds.getD 0 0 + 9 * ds.getD 1 0 + 8 * ds.getD 2 0 + 7 * ds.getD 3 0 +
               6 * ds.getD 4 0 + 5 * ds.getD 5 0 + 4 * ds.getD 6 0 + 3 * ds.getD 7 0 +
               2 * ds.getD 8 0
  let check := 11 - total % 11
  check ≠ 10 ∧ (if check = 11 then 0 else check) = ds.getD 9 0

/-! ## Theorems -/

theorem isAsciiDigit_ne_space {c : Char} (h : isAsciiDigit c = true) : c ≠ ' ' := by
  intro he
  rw [he] at h
  exact absurd h (by decide)

theorem removeSpaces_of_digits (l : List Char) (h : ∀ c ∈ l, isAsciiDigit c = true) :
    removeSpaces l = l := by
  unfold removeSpaces
  rw [List.filter_eq_self]
  intro c hc
  simpa using isAsciiDigit_ne_space (h c hc)

theorem list_len_ten (l : List Char) (hl : l.length = 10) :
    ∃ a b c d e f g h i j, l = [a, b, c, d, e, f, g, h, i, j] := by
  rcases l with _ | ⟨a, l⟩; · simp at hl
  rcases l with _ | ⟨b, l⟩; · simp at hl
  rcases l with _ | ⟨c, l⟩; · simp at hl
  rcases l with _ | ⟨d, l⟩; · simp at hl
  rcases l with _ | ⟨e, l⟩; · simp at hl
  rcases l with _ | ⟨f, l⟩; · simp at hl
  rcases l with _ | ⟨g, l⟩; · simp at hl
  rcases l with _ | ⟨h, l⟩; · simp at hl
  rcases l with _ | ⟨i, l⟩; · simp at hl
  rcases l with _ | ⟨j, l⟩; · simp at hl
  rcases l with _ | ⟨k, l⟩
  · exact ⟨a, b, c, d, e, f, g, h, i, j, rfl⟩
  · simp at hl

theorem pyMatchTenDigits_of_digits (l : List Char) (hl : l.length = 10)
    (h : ∀ c ∈ l, isAsciiDigit c = true) : pyMatchTenDigits l = true := by
  simp [pyMatchTenDigits, hl, List.all_eq_true]
  exact h

/-- C1: evaluating the normalizer at the restricted mock document (NHS
number 9000000017, security code "R"): the code raises the generic
`ValueError("Access denied: Restricted patient record")` — an error that
carries neither a dedicated restricted-error type nor the identifier —
and, as the source order of `_parse_patient_response` shows, only after
name/address/GP extraction has already run.  This contradicts the claim
(and the repository's own test, which imports `RestrictedPatientError`
and expects the message "Access to patient record 9000000017 is
RESTRICTED"). -/
theorem C1_restricted_raises_generic_error :
    parse_patient_response today0 "9000000017" restrictedDoc =
      .error (.valueError "Access denied: Restricted patient record") := by
  rfl

/-- C2: the normalizer never returns a `PatientDemographics` with
`is_restricted = true`: detecting the restricted marker short-circuits
into a failure, so every record handed back has `is_restricted = false`. -/
theorem C2_no_restricted_instance_returned :
    ∀ (today : Date) (nhs : String) (data : FhirPatient) (p : PatientDemographics),
      parse_patient_response today nhs data = .ok p → p.is_restricted = false := by
  intro today nhs data p h
  rcases hr : docIsRestricted data with _ | _
  · simp [parse_patient_response, hr] at h
    subst h
    simp [hr]
  · simp [parse_patient_response, hr] at h

/-- C2 witness: at the standard Jane Smith document the normalizer
succeeds and the theorem yields `is_restricted = false`. -/
theorem C2_witness :
    parse_patient_response today0 "9000000009" janeDoc = .ok janeExpected ∧
    janeExpected.is_restricted = false :=
  ⟨rfl, C2_no_restricted_instance_returned today0 "9000000009" janeDoc janeExpected rfl⟩

/-- C3: for every string of exactly 10 ASCII digits, `validate_nhs_number`
accepts iff the specification's check-digit rule holds of its digits
(11 - weighted-sum mod 11, with 11 mapped to 0 and 10 always invalid,
compared with the tenth digit); in particular `9000000009` is accepted
and `9000000000` and `9000000008` are rejected. -/
theorem C3_checksum_characterization :
    (∀ s : String, s.data.length = 10 → (∀ c ∈ s.data, isAsciiDigit c = true) →
      (validate_nhs_number s = true ↔ nhsCheckDigitSpec (s.data.map charToDigit))) ∧
    validate_nhs_number "9000000009" = true ∧
    validate_nhs_number "9000000000" = false ∧
    validate_nhs_number "9000000008" = false := by
  constructor
  case right => exact ⟨by decide, by decide, by decide⟩
  intro s hlen hdig
  obtain ⟨a, b, c, d, e, f, g, h, i, j, hs⟩ := list_len_ten s.data hlen
  rw [hs] at hdig
  have hrs : removeSpaces s.data = s.data := removeSpaces_of_digits s.data (hs ▸ hdig)
  have hmt : pyMatchTenDigits [a, b, c, d, e, f, g, h, i, j] = true :=
    pyMatchTenDigits_of_digits _ (by simp) hdig
  unfold validate_nhs_number validateChars
  rw [hrs, hs]
  simp only [hmt, nhsCheckDigitSpec, List.map, List.getD,
    List.take, nhsWeights, List.zipWith, List.sum_cons, List.sum_nil,
    List.get?_cons_succ, List.get?_cons_zero, Option.getD_some,
    eq_self_iff_true, if_true]
  split_ifs <;>
    first
      | omega
      | (simp only [beq_iff_eq, Bool.false_eq_true, false_iff]; omega)

/-- C3 witness: the general characterization applied to the concrete
ten-digit string `"9000000009"`. -/
theorem C3_witness :
    ("9000000009".data.length = 10 ∧ (∀ c ∈ "9000000009".data, isAsciiDigit c = true)) ∧
    (validate_nhs_number "9000000009" = true ↔
      nhsCheckDigitSpec ("9000000009".data.map charToDigit)) :=
  ⟨⟨by decide, by decide⟩,
   C3_checksum_characterization.1 "9000000009" (by decide) (by decide)⟩

theorem removeSpaces_idem (l : List Char) :
    removeSpaces (removeSpaces l) = removeSpaces l := by
  unfold removeSpaces
  rw [List.filter_filter]
  simp

/-- C4 counterexample: the validator does not strip general whitespace
— only the space character — and its format gate is not "exactly 10
ASCII digits".  `"\t9000000009"` strips (per the claim) to the valid
`"9000000009"` yet is rejected by the code, while `"9000000009\n"`
(length 11, containing a non-digit) is accepted because Python's `$`
matches before a trailing newline. -/
theorem C4_counterexample :
    pyStrip "\t9000000009" = "9000000009" ∧
    validate_nhs_number "9000000009" = true ∧
    validate_nhs_number "\t9000000009" = false ∧
    validate_nhs_number "9000000009\n" = true :=
  ⟨by decide, by decide, by decide, by decide⟩

theorem validateChars_false_of_no_match {s : String}
    (h : pyMatchTenDigits (removeSpaces s.data) = false) :
    validate_nhs_number s = false := by
  show validateChars s.data = false
  unfold validateChars
  simp [h]

theorem pyMatchTenDigits_digits_of_true {l : List Char}
    (h : pyMatchTenDigits l = true) : ∀ c ∈ l.take 10, isAsciiDigit c = true := by
  unfold pyMatchTenDigits at h
  simp only [Bool.or_eq_true, Bool.and_eq_true, beq_iff_eq, List.all_eq_true] at h
  rcases h with ⟨_, hall⟩ | ⟨⟨_, hall⟩, _⟩
  · exact fun c hc => hall c (List.take_subset 10 l hc)
  · exact hall

/-- C4 (amended): `validate_nhs_number` removes only space characters
(not general whitespace) and returns a Boolean without raising; it is
insensitive to spaces (so `"900 000 0009"` validates like
`"9000000009"`), and it rejects — without reaching any checksum
arithmetic — every input whose space-stripped remainder has a length
other than 10 or 11, every length-11 remainder not ending in a newline
(the accepted length-11 shape, e.g. `"9000000009\n"`, is an artifact of
Python's `$` anchor), and every input carrying an ASCII non-digit
character among the first ten positions of its remainder.  (Acceptance
is not limited to ASCII digits: Python's `\d` and `int()` also accept
non-ASCII Unicode decimal digits, which this embedding does not model,
so no exact characterization of the digit class is claimed.) -/
theorem C4_amended_space_handling :
    (∀ s : String, validate_nhs_number (String.mk (removeSpaces s.data)) =
      validate_nhs_number s) ∧
    (∀ s : String, (removeSpaces s.data).length ≠ 10 →
      (removeSpaces s.data).length ≠ 11 → validate_nhs_number s = false) ∧
    (∀ s : String, (removeSpaces s.data).length = 11 →
      (removeSpaces s.data).getLast? ≠ some '\n' → validate_nhs_number s = false) ∧
    (∀ s : String, (∃ c ∈ (removeSpaces s.data).take 10,
        c.toNat < 128 ∧ isAsciiDigit c = false) → validate_nhs_number s = false) ∧
    validate_nhs_number "900 000 0009" = validate_nhs_number "9000000009" ∧
    validate_nhs_number "9000000009" = true ∧
    validate_nhs_number "9000000009\n" = true := by
  refine ⟨?_, ?_, ?_, ?_, by decide, by decide, by decide⟩
  · intro s
    show validateChars (removeSpaces s.data) = validateChars s.data
    unfold validateChars
    rw [removeSpaces_idem]
  · intro s h10 h11
    refine validateChars_false_of_no_match ?_
    unfold pyMatchTenDigits
    simp [h10, h11]
  · intro s h11 hlast
    refine validateChars_false_of_no_match ?_
    unfold pyMatchTenDigits
    simp [h11, hlast]
  · intro s h
    obtain ⟨c, hc, hascii, hnd⟩ := h
    rcases hm : pyMatchTenDigits (removeSpaces s.data) with _ | _
    · exact validateChars_false_of_no_match hm
    · exact absurd (pyMatchTenDigits_digits_of_true hm c hc) (by simp [hnd])

/-- C4 witness: a wrong-length input (`"12345"`) is rejected. -/
theorem C4_witness :
    (removeSpaces "12345".data).length ≠ 10 ∧ (removeSpaces "12345".data).length ≠ 11 ∧
    validate_nhs_number "12345" = false :=
  ⟨by decide, by decide, C4_amended_space_handling.2.1 "12345" (by decide) (by decide)⟩

/-- C5: constructing an integration or production client without a
token fails at construction with the configuration `ValueError` (so no
client exists to perform a lookup); constructing a sandbox client
without a token succeeds. -/
theorem C5_construction_gate :
    pdsClientInit .INTEGRATION none =
      .error (.valueError
        ("Access token required for int environment. " ++
         "Use PDSEnvironment.SANDBOX for unauthenticated testing.")) ∧
    pdsClientInit .PRODUCTION none =
      .error (.valueError
        ("Access token required for prod environment. " ++
         "Use PDSEnvironment.SANDBOX for unauthenticated testing.")) ∧
    pdsClientInit .SANDBOX none = .ok sandboxClient := by
  refine ⟨rfl, rfl, rfl⟩

/-- C6: for every identifier that fails validation after stripping
spaces, both lookup variants return the `Invalid NHS number` failure,
and the result does not depend on the transport at all (the same fixed
error for every transport oracle) — no network call is made. -/
theorem C6_invalid_identifier_no_transport :
    ∀ (c : PDSClient) (requestId : String) (today : Date) (nhs : String),
      validate_nhs_number (String.mk (removeSpaces nhs.data)) = false →
      ∀ transport : Transport,
        lookup_patient c transport requestId today nhs =
          .error (.valueError ("Invalid NHS number: " ++ String.mk (removeSpaces nhs.data))) ∧
        lookup_patient_sync c transport requestId today nhs =
          .error (.valueError ("Invalid NHS number: " ++ String.mk (removeSpaces nhs.data))) := by
  intro c requestId today nhs h transport
  have h' : validateChars (removeSpaces nhs.data) = false := h
  constructor
  · unfold lookup_patient
    simp [validate_nhs_number, h']
  · unfold lookup_patient_sync
    simp [validate_nhs_number, h']

/-- C6 witness: `1234567890` has check digit 10, fails validation, and
both lookups reject it with the fixed error under a concrete transport. -/
theorem C6_witness :
    validate_nhs_number (String.mk (removeSpaces "1234567890".data)) = false ∧
    lookup_patient sandboxClient dummyTransport "rid" today0 "1234567890" =
      .error (.valueError "Invalid NHS number: 1234567890") ∧
    lookup_patient_sync sandboxClient dummyTransport "rid" today0 "1234567890" =
      .error (.valueError "Invalid NHS number: 1234567890") := by
  refine ⟨by decide, ?_, ?_⟩
  · exact (C6_invalid_identifier_no_transport sandboxClient "rid" today0 "1234567890"
      (by decide) dummyTransport).1
  · exact (C6_invalid_identifier_no_transport sandboxClient "rid" today0 "1234567890"
      (by decide) dummyTransport).2

theorem splitOnChar_ne_nil (sep : Char) (l : List Char) : splitOnChar sep l ≠ [] := by
  induction l with
  | nil => simp [splitOnChar]
  | cons c cs ih =>
    simp only [splitOnChar]
    rcases hs : splitOnChar sep cs with _ | ⟨hd, tl⟩
    · exact absurd hs ih
    · by_cases hc : c = sep <;> simp [hc]

theorem splitOnChar_no_sep (sep : Char) (l : List Char) (h : sep ∉ l) :
    splitOnChar sep l = [l] := by
  induction l with
  | nil => rfl
  | cons c cs ih =>
    have hc : c ≠ sep := fun e => h (by simp [e])
    have hcs : sep ∉ cs := fun m => h (by simp [m])
    simp only [splitOnChar, ih hcs]
    simp [hc]

theorem splitOnChar_append (sep : Char) (a rest : List Char) (h : sep ∉ a) :
    splitOnChar sep (a ++ sep :: rest) = a :: splitOnChar sep rest := by
  induction a with
  | nil =>
    simp only [List.nil_append, splitOnChar]
    rcases hs : splitOnChar sep rest with _ | ⟨hd, tl⟩
    · exact absurd hs (splitOnChar_ne_nil sep rest)
    · simp
  | cons c cs ih =>
    have hc : c ≠ sep := fun e => h (by simp [e])
    have hcs : sep ∉ cs := fun m => h (by simp [m])
    rw [List.cons_append]
    show (match splitOnChar sep (cs ++ sep :: rest) with
      | [] => [[]]
      | hd :: tl => if c = sep then [] :: hd :: tl else (c :: hd) :: tl) =
      (c :: cs) :: splitOnChar sep rest
    rw [ih hcs]
    simp [hc]

/-- C7: for a well-formed `Y-M-D` birth date (three `"-"`-free numeric
fragments forming a valid calendar date), the computed age is today's
year minus the birth year, minus one exactly when today's (month, day)
lexicographically precedes the birth (month, day); and a malformed or
missing date of birth never raises — the age field is absent and the
normalization still succeeds. -/
theorem C7_age_computation :
    (∀ (today : Date) (a b c : List Char) (y m d : Nat),
      '-' ∉ a → '-' ∉ b → '-' ∉ c →
      pyParseNat a = some y → pyParseNat b = some m → pyParseNat c = some d →
      pyDateValid y m d = true →
      calculate_age today (String.mk (a ++ '-' :: (b ++ '-' :: c))) =
        some ((today.year : Int) - (y : Int) -
          (if pairLt (today.month, today.day) (m, d) then 1 else 0))) ∧
    (∀ (today : Date) (nhs s : String) (data : FhirPatient),
      data.birthDate = some s → calculate_age today s = none →
      docIsRestricted data = false →
      ∃ p, parse_patient_response today nhs data = .ok p ∧
        p.age = none ∧ p.date_of_birth = some s) ∧
    (∀ (today : Date) (nhs : String) (data : FhirPatient),
      data.birthDate = none → docIsRestricted data = false →
      ∃ p, parse_patient_response today nhs data = .ok p ∧
        p.age = none ∧ p.date_of_birth = none) := by
  refine ⟨?_, ?_, ?_⟩
  · intro today a b c y m d hna hnb hnc hy hm hd hvalid
    have hsplit : splitOnChar '-' (a ++ '-' :: (b ++ '-' :: c)) = [a, b, c] := by
      rw [splitOnChar_append '-' a _ hna, splitOnChar_append '-' b _ hnb,
        splitOnChar_no_sep '-' c hnc]
    show (let parts := splitOnChar '-' (a ++ '-' :: (b ++ '-' :: c));
      match parts.get? 0, parts.get? 1, parts.get? 2 with
      | some p0, some p1, some p2 =>
        match pyParseNat p0, pyParseNat p1, pyParseNat p2 with
        | some y, some m, some d =>
          if pyDateValid y m d then
            let age : Int := (today.year : Int) - (y : Int)
            if pairLt (today.month, today.day) (m, d) then some (age - 1) else some age
          else none
        | _, _, _ => none
      | _, _, _ => none) =
      some ((today.year : Int) - (y : Int) -
        (if pairLt (today.month, today.day) (m, d) then 1 else 0))
    simp only [hsplit, List.get?_cons_zero, List.get?_cons_succ, hy, hm, hd, hvalid, if_true]
    by_cases hp : pairLt (today.month, today.day) (m, d) = true <;> simp [hp]
  · intro today nhs s data hb hage hr
    simp only [parse_patient_response, hr, Bool.false_eq_true, if_false]
    refine ⟨_, rfl, ?_, ?_⟩
    · show (if pyTruthy data.birthDate = true then calculate_age today (data.birthDate.getD "")
        else none) = none
      rw [hb]
      by_cases he : s = ""
      · simp [pyTruthy, he]
      · simp [pyTruthy, he]
        exact hage
    · exact hb
  · intro today nhs data hb hr
    simp only [parse_patient_response, hr, Bool.false_eq_true, if_false]
    refine ⟨_, rfl, ?_, ?_⟩
    · show (if pyTruthy data.birthDate = true then calculate_age today (data.birthDate.getD "")
        else none) = none
      rw [hb]
      simp [pyTruthy]
    · exact hb

/-- C7 witness: birth date 1980-10-13 against the reference date
2026-10-12 (one day before the birthday) gives age 45. -/
theorem C7_witness :
    ('-' ∉ "1980".data) ∧ ('-' ∉ "10".data) ∧ ('-' ∉ "13".data) ∧
    pyParseNat "1980".data = some 1980 ∧ pyParseNat "10".data = some 10 ∧
    pyParseNat "13".data = some 13 ∧ pyDateValid 1980 10 13 = true ∧
    calculate_age today0 (String.mk ("1980".data ++ '-' :: ("10".data ++ '-' :: "13".data))) =
      some 45 := by
  refine ⟨by decide, by decide, by decide, by decide, by decide, by decide, by decide, ?_⟩
  have h := C7_age_computation.1 today0 "1980".data "10".data "13".data 1980 10 13
    (by decide) (by decide) (by decide) (by decide) (by decide) (by decide) (by decide)
  simpa using h

/-- C8: the blocking and the suspending lookup are the same algorithm:
for every client, transport response, request id, date and identifier
they produce the same normalized record or the same failure. -/
theorem C8_sync_async_identical :
    ∀ (c : PDSClient) (transport : Transport) (requestId : String)
      (today : Date) (nhs : String),
      lookup_patient c transport requestId today nhs =
        lookup_patient_sync c transport requestId today nhs := by
  intro c transport requestId today nhs
  rfl

/-- C9 counterexample: the record returned for the Jane Smith document
retains the raw registry document — `raw_response` is `some janeDoc`,
not absent — refuting "the PatientDemographics record returned to the
caller does not retain the raw registry document". -/
theorem C9_counterexample :
    parse_patient_response today0 "9000000009" janeDoc = .ok janeExpected ∧
    janeExpected.raw_response = some janeDoc := by
  exact ⟨rfl, rfl⟩

/-- C9 (amended): the normalizer parses the raw document in a single
pass and the client keeps no state between lookups, but every
successfully returned record retains the raw document in its
`raw_response` field. -/
theorem C9_amended_raw_response_retained :
    ∀ (today : Date) (nhs : String) (data : FhirPatient) (p : PatientDemographics),
      parse_patient_response today nhs data = .ok p → p.raw_response = some data := by
  intro today nhs data p h
  rcases hr : docIsRestricted data with _ | _
  · simp [parse_patient_response, hr] at h
    subst h
    simp
  · simp [parse_patient_response, hr] at h

/-- C9 witness: the amended theorem applied to the all-absent document. -/
theorem C9_witness :
    parse_patient_response today0 "9000000025" emptyDoc =
      .ok { nhs_number := "9000000025", gender := some "", raw_response := some emptyDoc } ∧
    ({ nhs_number := "9000000025", gender := some "", raw_response := some emptyDoc }
        : PatientDemographics).raw_response = some emptyDoc :=
  ⟨rfl, C9_amended_raw_response_retained today0 "9000000025" emptyDoc _ rfl⟩

/-- C10: an empty-string bearer token behaves exactly like an absent
token: construction for integration/production with `""` yields the
same configuration error as with no token, and no `Authorization`
header is ever attached when the configured token is `""`. -/
theorem C10_empty_token_like_absent :
    pdsClientInit .INTEGRATION (some "") = pdsClientInit .INTEGRATION none ∧
    pdsClientInit .PRODUCTION (some "") = pdsClientInit .PRODUCTION none ∧
    (∀ (c : PDSClient), c.access_token = some "" → ∀ requestId : String,
      get_headers c requestId =
        [("Accept", "application/fhir+json"), ("X-Request-ID", requestId)] ∧
      (get_headers c requestId).all (fun h => h.1 ≠ "Authorization") = true) := by
  refine ⟨rfl, rfl, ?_⟩
  intro c h requestId
  constructor
  · simp [get_headers, h, pyTruthy]
  · simp [get_headers, h, pyTruthy]

/-- C10 witness: the theorem applied to a concrete client configured
with the empty-string token. -/
theorem C10_witness :
    ({ environment := .SANDBOX, access_token := some "",
       base_url := "https://sandbox.api.service.nhs.uk" } : PDSClient).access_token = some "" ∧
    (get_headers
        { environment := .SANDBOX, access_token := some "",
          base_url := "https://sandbox.api.service.nhs.uk" } "rid" =
      [("Accept", "application/fhir+json"), ("X-Request-ID", "rid")] ∧
     (get_headers
        { environment := .SANDBOX, access_token := some "",
          base_url := "https://sandbox.api.service.nhs.uk" } "rid").all
        (fun h => h.1 ≠ "Authorization") = true) :=
  ⟨rfl, C10_empty_token_like_absent.2.2 _ rfl "rid"⟩

end PDS
